import Mathlib

/-!
Shallow embedding of the gap-zone lifecycle engine (`FairValueGaps.py`,
class `FVGDisplay`) and of the risk-gate / exit-planning machinery
(`src/risk_manager.py`, `src/exit_strategies.py`) of the
Claude-Trader-NinjaTrader repository, together with proofs of the
claims about them.

Conventions of the embedding:
- Python floats (prices, P/L, confidence) are modelled as `ℚ`;
  Python ints as `ℤ` or `ℕ` as appropriate.
- Reason strings returned by the risk gate keep the source's wording
  but drop the interpolated numeric values (e.g. the source's
  "Stop too tight: 3.0pts (min: 15)" becomes "Stop too tight").
- Logging, file persistence and `datetime.now()` are side effects
  outside the core logic; time is threaded explicitly as a `ℚ`
  parameter (seconds) where the source calls `datetime.now()`.
-/

namespace SpecProof

/-- One OHLC bar of the input series (columns `Open`, `High`, `Low`,
`Close` of the CSV read by `FVGDisplay`).  `Open` is a Lean keyword,
so the field is named `opn`. -/
structure Bar where
  opn : ℚ
  high : ℚ
  low : ℚ
  close : ℚ
deriving Repr, DecidableEq

/-- Zone direction tag (`'bullish'` / `'bearish'` strings in the source). -/
inductive FVGType where
  | bullish
  | bearish
deriving Repr, DecidableEq

/-- A fair-value-gap zone record, as built by `find_fvgs_in_data` /
`find_new_fvgs`.  The `datetime` field of the source is subsumed by the
creating bar index `index`; the auxiliary display-only fields
(`trade_taken`, `trade_bar_timestamp`, `price_was_outside`) carry no
logic and are omitted. -/
structure FVG where
  type : FVGType
  top : ℚ
  bottom : ℚ
  gap_size : ℚ
  index : ℕ
  filled : Bool
deriving Repr, DecidableEq

/-- Embedding of `FVGDisplay.zones_overlap`: two zones overlap unless one lies
entirely at or above the other. -/
def zones_overlap (zone1_bottom zone1_top zone2_bottom zone2_top : ℚ) : Bool :=
  if zone1_bottom ≥ zone2_top ∨ zone2_bottom ≥ zone1_top then false else true

/-- The scan loop of `FVGDisplay.is_duplicate_zone`: walk the active
list with its enumeration index, accumulating `zones_to_remove`
(indices of overlapping same-type unfilled zones with strictly larger
gap).  Returns `(true, marksSoFar)` on the early `return True` (the
candidate loses to an existing zone of smaller-or-equal gap), and
`(false, allMarks)` when the scan completes. -/
def scan_marks (new_fvg : FVG) : List FVG → ℕ → List ℕ → Bool × List ℕ
  | [], _, zones_to_remove => (false, zones_to_remove)
  | existing_fvg :: rest, i, zones_to_remove =>
    if existing_fvg.type ≠ new_fvg.type then
      scan_marks new_fvg rest (i + 1) zones_to_remove
    else if existing_fvg.filled then
      scan_marks new_fvg rest (i + 1) zones_to_remove
    else if zones_overlap existing_fvg.bottom existing_fvg.top
                          new_fvg.bottom new_fvg.top then
      if new_fvg.gap_size < existing_fvg.gap_size then
        scan_marks new_fvg rest (i + 1) (zones_to_remove ++ [i])
      else
        (true, zones_to_remove)
    else
      scan_marks new_fvg rest (i + 1) zones_to_remove

/-- Popping the marked indices.  The source pops `zones_to_remove` in
descending order, which removes exactly the elements at those
positions; this is expressed by filtering the enumerated list. -/
def remove_indices (active_fvgs : List FVG) (zones_to_remove : List ℕ) : List FVG :=
  (active_fvgs.enum.filter (fun p => p.1 ∉ zones_to_remove)).map Prod.snd

/-- Embedding of `FVGDisplay.is_duplicate_zone`: returns the duplicate verdict
together with the resulting active list.  On the early `return True`
the pop loop is never reached, so the list is returned unchanged. -/
def is_duplicate_zone (new_fvg : FVG) (active_fvgs : List FVG) : Bool × List FVG :=
  match scan_marks new_fvg active_fvgs 0 [] with
  | (true, _) => (true, active_fvgs)
  | (false, zones_to_remove) => (false, remove_indices active_fvgs zones_to_remove)

/-- One registry insertion as performed inside `find_new_fvgs`:
`if not self.is_duplicate_zone(fvg): self.active_fvgs.append(fvg)`. -/
def insert_fvg (active_fvgs : List FVG) (new_fvg : FVG) : List FVG :=
  match is_duplicate_zone new_fvg active_fvgs with
  | (true, l) => l
  | (false, l) => l ++ [new_fvg]

/-- The candidate zone produced by `find_fvgs_in_data` /
`find_new_fvgs` from bars at positions `i-2` and `i` (the middle bar is
required to exist but is not inspected), or `none` when no gap of at
least 5.0 points is present. -/
def fvg_at (df : List Bar) (i : ℕ) : Option FVG :=
  match df.get? (i - 2), df.get? i with
  | some candle1, some candle3 =>
    if candle3.low > candle1.high then
      let gap_size := candle3.low - candle1.high
      if gap_size ≥ 5 then
        some ⟨FVGType.bullish, candle3.low, candle1.high, gap_size, i, false⟩
      else none
    else if candle3.high < candle1.low then
      let gap_size := candle1.low - candle3.high
      if gap_size ≥ 5 then
        some ⟨FVGType.bearish, candle1.low, candle3.high, gap_size, i, false⟩
      else none
    else none
  | _, _ => none

/-- Embedding of `FVGDisplay.find_fvgs_in_data` with the default `start_index=2`:
`for i in range(2, len(df))`, collecting the candidate (if any) of each
triple. -/
def find_fvgs_in_data (df : List Bar) : List FVG :=
  ((List.range df.length).drop 2).filterMap (fvg_at df)

/-- The gap detector written from the spec's own words (§4.1): for each
`i ≥ 2`, a Bullish candidate iff `bar[i].low > bar[i-2].high` and a
Bearish candidate iff `bar[i].high < bar[i-2].low`, candidates with
`gapSize < g` discarded.  Used as the reference side of the
refinement in claim C3. -/
def gapDetectorSpecAt (g : ℚ) (df : List Bar) (i : ℕ) : List FVG :=
  match df.get? (i - 2), df.get? i with
  | some c1, some c3 =>
    (if c3.low > c1.high ∧ c3.low - c1.high ≥ g then
      [⟨FVGType.bullish, c3.low, c1.high, c3.low - c1.high, i, false⟩] else [])
    ++ (if c3.high < c1.low ∧ c1.low - c3.high ≥ g then
      [⟨FVGType.bearish, c1.low, c3.high, c1.low - c3.high, i, false⟩] else [])
  | _, _ => []

/-- Reference gap detector over a whole series (spec §4.1). -/
def gapDetectorSpec (g : ℚ) (df : List Bar) : List FVG :=
  ((List.range df.length).drop 2).flatMap (gapDetectorSpecAt g df)

/-! ## Risk gate (`src/risk_manager.py`, class `EnterpriseRiskManager`) -/

/-- The `RiskState` enum of the source. -/
inductive RiskStateE where
  | normal
  | warning
  | halted
  | cooldown
deriving Repr, DecidableEq

/-- The risk-related configuration values read through
`self.config.risk` / `self.config.trading` (defaults from
`config_manager.py` shown in comments where a concrete instance is
needed). -/
structure RiskConfig where
  max_daily_trades : ℕ
  max_daily_loss : ℚ
  max_consecutive_losses : ℕ
  max_position_size : ℤ
  stop_loss_min : ℚ
  stop_loss_max : ℚ
  max_drawdown_percent : ℚ
  cool_down_after_loss_minutes : ℚ
  min_risk_reward : ℚ
  confidence_threshold : ℚ
deriving Repr, DecidableEq

/-- The `RiskMetrics` dataclass.  Timestamps are rationals (seconds);
`last_trade_time` / `last_loss_time` start as `None`. -/
structure RiskMetrics where
  daily_trades : ℕ := 0
  daily_pnl : ℚ := 0
  daily_wins : ℕ := 0
  daily_losses : ℕ := 0
  consecutive_losses : ℕ := 0
  current_drawdown : ℚ := 0
  peak_equity : ℚ := 0
  current_equity : ℚ := 0
  open_positions : ℤ := 0
  daily_volume : ℤ := 0
  last_trade_time : Option ℚ := none
  last_loss_time : Option ℚ := none
  state : RiskStateE := RiskStateE.normal
  state_reason : String := ""
deriving Repr, DecidableEq

/-- Embedding of `EnterpriseRiskManager._halt_trading`. -/
def halt_trading (m : RiskMetrics) (reason : String) : RiskMetrics :=
  { m with state := RiskStateE.halted, state_reason := reason }

/-- Embedding of `EnterpriseRiskManager._get_cooldown_remaining` at time `now`
(seconds): remaining seconds of the cooldown window, 0 when no loss
has been recorded. -/
def get_cooldown_remaining (cfg : RiskConfig) (m : RiskMetrics) (now : ℚ) : ℚ :=
  match m.last_loss_time with
  | none => 0
  | some t => max 0 (t + 60 * cfg.cool_down_after_loss_minutes - now)

/-- Embedding of `EnterpriseRiskManager._start_cooldown`. -/
def start_cooldown (cfg : RiskConfig) (m : RiskMetrics) : RiskMetrics :=
  if cfg.cool_down_after_loss_minutes > 0 ∧ m.state ≠ RiskStateE.halted then
    { m with state := RiskStateE.cooldown, state_reason := "Cooldown after loss" }
  else m

/-- Embedding of `EnterpriseRiskManager._check_risk_limits`. -/
def check_risk_limits (cfg : RiskConfig) (m : RiskMetrics) : RiskMetrics :=
  if m.daily_pnl ≤ -cfg.max_daily_loss then
    halt_trading m "Daily loss limit reached"
  else if m.consecutive_losses ≥ cfg.max_consecutive_losses then
    halt_trading m "Consecutive loss limit reached"
  else if m.current_drawdown ≥ cfg.max_drawdown_percent then
    halt_trading m "Maximum drawdown reached"
  else m

/-- The risk/reward ratio computed in `check_pre_trade`, with the
source's division guard (`... if stop_distance > 0 else 0`). -/
def risk_reward_of (entry stop target : ℚ) : ℚ :=
  let stop_distance := |entry - stop|
  if stop_distance > 0 then |target - entry| / stop_distance else 0

/-- The body of `check_pre_trade` after the state/cooldown gates: the
remaining policy checks of the source, in source order, applied to the
(possibly cooldown-cleared) metrics `m1`.  Reason strings keep the
source's wording minus interpolated numbers. -/
def check_pre_trade_policy (cfg : RiskConfig) (m1 : RiskMetrics)
    (direction : String) (entry stop target : ℚ) (quantity : ℤ)
    (confidence : ℚ) : RiskMetrics × Bool × String :=
  if m1.daily_trades ≥ cfg.max_daily_trades then
      (m1, false, "Daily trade limit reached")
    else if m1.daily_pnl ≤ -cfg.max_daily_loss then
      (halt_trading m1 "Daily loss limit reached", false, "Daily loss limit reached")
    else if m1.consecutive_losses ≥ cfg.max_consecutive_losses then
      (halt_trading m1 "Consecutive loss limit reached", false, "Consecutive loss limit")
    else if quantity > cfg.max_position_size then
      (m1, false, "Position size exceeds max")
    else if |entry - stop| < cfg.stop_loss_min then
      (m1, false, "Stop too tight")
    else if |entry - stop| > cfg.stop_loss_max then
      (m1, false, "Stop too wide")
    else if risk_reward_of entry stop target < cfg.min_risk_reward then
      (m1, false, "R-R below min")
    else if confidence < cfg.confidence_threshold then
      (m1, false, "Confidence below threshold")
    else if direction = "LONG" ∧ stop ≥ entry then
      (m1, false, "LONG stop must be below entry")
    else if direction = "SHORT" ∧ stop ≤ entry then
      (m1, false, "SHORT stop must be above entry")
    else if direction = "LONG" ∧ target ≤ entry then
      (m1, false, "LONG target must be above entry")
    else if direction = "SHORT" ∧ target ≥ entry then
      (m1, false, "SHORT target must be below entry")
    else if m1.daily_volume + quantity > 50 then
      (m1, false, "Daily volume limit would be exceeded")
    else
      (m1, true, "OK")

/-- Embedding of `EnterpriseRiskManager.check_pre_trade`.  Returns the updated
metrics (the method mutates `self.metrics` when it clears an expired
cooldown or halts on a breached limit) together with the
`(allowed, reason)` pair. -/
def check_pre_trade (cfg : RiskConfig) (m : RiskMetrics) (now : ℚ)
    (direction : String) (entry stop target : ℚ) (quantity : ℤ)
    (confidence : ℚ) : RiskMetrics × Bool × String :=
  if m.state = RiskStateE.halted then
    (m, false, "Trading halted: " ++ m.state_reason)
  else if m.state = RiskStateE.cooldown ∧ get_cooldown_remaining cfg m now > 0 then
    (m, false, "Cooldown active")
  else
    -- an expired cooldown is cleared before the remaining checks
    check_pre_trade_policy cfg
      (if m.state = RiskStateE.cooldown then
        { m with state := RiskStateE.normal, state_reason := "" } else m)
      direction entry stop target quantity confidence

/-- Embedding of `EnterpriseRiskManager.record_trade_exit` (the `TradeRecord`
bookkeeping list, logging and state persistence are I/O and are
omitted; `trade_id` is unused by the retained logic). -/
def record_trade_exit (cfg : RiskConfig) (m : RiskMetrics) (now : ℚ)
    (direction : String) (entry_price exit_price : ℚ) (quantity : ℤ)
    (result : String) : RiskMetrics :=
  let pnl := if direction = "LONG" then (exit_price - entry_price) * quantity
             else (entry_price - exit_price) * quantity
  let m := { m with daily_pnl := m.daily_pnl + pnl,
                    open_positions := max 0 (m.open_positions - 1) }
  let m :=
    if result = "WIN" then
      { m with daily_wins := m.daily_wins + 1, consecutive_losses := 0 }
    else if result = "LOSS" then
      start_cooldown cfg
        { m with daily_losses := m.daily_losses + 1,
                 consecutive_losses := m.consecutive_losses + 1,
                 last_loss_time := some now }
    else m
  let m := { m with current_equity := m.current_equity + pnl }
  let m := if m.current_equity > m.peak_equity then
      { m with peak_equity := m.current_equity } else m
  let m := if m.peak_equity > 0 then
      { m with current_drawdown :=
          (m.peak_equity - m.current_equity) / m.peak_equity * 100 }
    else m
  check_risk_limits cfg m

/-- Embedding of `EnterpriseRiskManager.get_position_size`.  Python's floor
division `//` is `Int.fdiv`. -/
def get_position_size (cfg : RiskConfig) (m : RiskMetrics) (base_size : ℤ) : ℤ :=
  let size := min base_size cfg.max_position_size
  let size := if m.consecutive_losses ≥ 2 then max 1 (Int.fdiv size 2) else size
  let size := if m.daily_trades ≥ cfg.max_daily_trades - 1 then
      max 1 (Int.fdiv size 2) else size
  size

/-! ## Exit planning (`src/exit_strategies.py`, class `ExitManager`) -/

/-- Python's `int()` on a float: truncation toward zero. -/
def int_trunc (x : ℚ) : ℤ :=
  if 0 ≤ x then ⌊x⌋ else ⌈x⌉

/-- The `ExitPlan` dataclass.  The partial sizes are the integers
computed by `create_exit_plan`. -/
structure ExitPlanL where
  initial_stop : ℚ
  target_1 : ℚ
  target_2 : ℚ
  target_3 : ℚ
  trailing_trigger : ℚ
  trailing_offset : ℚ
  breakeven_trigger : ℚ
  time_limit_bars : ℕ
  partial_sizes : ℤ × ℤ × ℤ
deriving Repr, DecidableEq

/-- Embedding of `ExitManager.create_exit_plan`, with the constructor defaults
`partial_at_1r = partial_at_2r = 0.33`, `breakeven_trigger_r = 1.5`,
`trailing_trigger_r = 2.0`, `trailing_offset_r = 0.5`,
`max_hold_bars = 20`. -/
def create_exit_plan (direction : String) (entry stop _target : ℚ)
    (quantity : ℤ) : ExitPlanL :=
  let risk := |entry - stop|
  let target_1 := if direction = "LONG" then entry + risk * 1 else entry - risk * 1
  let target_2 := if direction = "LONG" then entry + risk * 2 else entry - risk * 2
  let target_3 := if direction = "LONG" then entry + risk * (7/2) else entry - risk * (7/2)
  let breakeven_trigger :=
    if direction = "LONG" then entry + risk * (3/2) else entry - risk * (3/2)
  let trailing_trigger :=
    if direction = "LONG" then entry + risk * 2 else entry - risk * 2
  let trailing_offset := risk * (1/2)
  let qty_1 := max 1 (int_trunc ((quantity : ℚ) * (33/100)))
  let qty_2 := max 1 (int_trunc ((quantity : ℚ) * (33/100)))
  let qty_3 := quantity - qty_1 - qty_2
  { initial_stop := stop
    target_1 := target_1
    target_2 := target_2
    target_3 := target_3
    trailing_trigger := trailing_trigger
    trailing_offset := trailing_offset
    breakeven_trigger := breakeven_trigger
    time_limit_bars := 20
    partial_sizes := (qty_1, qty_2, qty_3) }

/-- Embedding of `ExitManager.calculate_trailing_stop`. -/
def calculate_trailing_stop (direction : String)
    (current_price _entry current_stop highest_price lowest_price
     trailing_offset : ℚ) : Option ℚ :=
  if direction = "LONG" then
    let new_stop := highest_price - trailing_offset
    if new_stop > current_stop ∧ new_stop < current_price then some new_stop
    else none
  else
    let new_stop := lowest_price + trailing_offset
    if new_stop < current_stop ∧ new_stop > current_price then some new_stop
    else none

/-- Embedding of `ExitManager.should_move_to_breakeven`. -/
def should_move_to_breakeven (direction : String)
    (current_price entry current_stop breakeven_trigger : ℚ) : Bool :=
  if direction = "LONG" ∧ current_stop ≥ entry then false
  else if direction = "SHORT" ∧ current_stop ≤ entry then false
  else if direction = "LONG" then
    decide (current_price ≥ breakeven_trigger)
  else
    decide (current_price ≤ breakeven_trigger)

/-- Embedding of `ExitManager.check_partial_exit`. -/
def check_partial_exit (direction : String) (current_price : ℚ)
    (exit_plan : ExitPlanL) (partials_taken : ℕ) : Option (ℚ × ℤ) :=
  if partials_taken ≥ 2 then none
  else
    let target := if partials_taken = 0 then exit_plan.target_1 else exit_plan.target_2
    let size := if partials_taken = 0 then exit_plan.partial_sizes.1
                else exit_plan.partial_sizes.2.1
    if direction = "LONG" then
      if current_price ≥ target then some (target, size) else none
    else
      if current_price ≤ target then some (target, size) else none

/-- Embedding of `ExitManager.check_time_exit`. -/
def check_time_exit (bars_in_trade : ℕ) (current_pnl : ℚ)
    (exit_plan : ExitPlanL) : Bool :=
  if bars_in_trade ≥ exit_plan.time_limit_bars then
    if current_pnl ≥ 0 then true
    else if current_pnl > -10 then true
    else false
  else false

/-- Embedding of `ExitManager.detect_reversal`.  The source requires
`len(recent_bars) ≥ 3` and reads `recent_bars[-1]` and
`recent_bars[-2]`. -/
def detect_reversal (direction : String) (current_price _ema21 ema75 : ℚ)
    (recent_bars : List Bar) : Bool :=
  match recent_bars.reverse with
  | last_bar :: prev_bar :: _ :: _ =>
    if direction = "LONG" then
      if current_price < ema75 ∧ prev_bar.close > ema75 then true
      else
        let bar_range := last_bar.high - last_bar.low
        if bar_range > 0 then
          decide (last_bar.close < last_bar.opn ∧
            |last_bar.close - last_bar.opn| / bar_range > 3/4 ∧ bar_range > 15)
        else false
    else
      if current_price > ema75 ∧ prev_bar.close < ema75 then true
      else
        let bar_range := last_bar.high - last_bar.low
        if bar_range > 0 then
          decide (last_bar.close > last_bar.opn ∧
            |last_bar.close - last_bar.opn| / bar_range > 3/4 ∧ bar_range > 15)
        else false
  | _ => false

/-- The actions dictionary returned by
`ExitManager.get_exit_recommendation`. -/
structure ExitActions where
  move_stop : Option ℚ
  take_partial : Option (ℚ × ℤ)
  close_position : Bool
  close_reason : Option String
deriving Repr, DecidableEq

/-- Embedding of `ExitManager.get_exit_recommendation`: `ema21`/`ema75` stand for
`market_data.get('ema21', 0)` / `market_data.get('ema75', 0)`. -/
def get_exit_recommendation (direction : String)
    (entry current_price current_stop : ℚ) (exit_plan : ExitPlanL)
    (partials_taken bars_in_trade : ℕ)
    (highest_since_entry lowest_since_entry ema21 ema75 : ℚ)
    (recent_bars : List Bar) : ExitActions :=
  let current_pnl := if direction = "LONG" then current_price - entry
                     else entry - current_price
  if recent_bars ≠ [] ∧
      detect_reversal direction current_price ema21 ema75 recent_bars then
    { move_stop := none, take_partial := none,
      close_position := true, close_reason := some "Reversal detected" }
  else if check_time_exit bars_in_trade current_pnl exit_plan then
    { move_stop := none, take_partial := none,
      close_position := true, close_reason := some "Time exit" }
  else
    let take_partial :=
      check_partial_exit direction current_price exit_plan partials_taken
    let move_stop :=
      if should_move_to_breakeven direction current_price entry current_stop
          exit_plan.breakeven_trigger then
        some (entry + (if direction = "LONG" then 1 else -1))
      else if (if direction = "LONG" then current_stop ≥ entry
               else current_stop ≤ entry) then
        if (direction = "LONG" ∧ current_price ≥ exit_plan.trailing_trigger) ∨
           (direction = "SHORT" ∧ current_price ≤ exit_plan.trailing_trigger) then
          calculate_trailing_stop direction current_price entry current_stop
            highest_since_entry lowest_since_entry exit_plan.trailing_offset
        else none
      else none
    { move_stop := move_stop, take_partial := take_partial,
      close_position := false, close_reason := none }

/-! ## Registry lemmas -/

/-- The scan's "this existing zone is relevant" condition: same type,
unfilled, and geometrically overlapping the candidate. -/
def same_type_unfilled_overlap (new_fvg z : FVG) : Prop :=
  z.type = new_fvg.type ∧ z.filled = false ∧
    zones_overlap z.bottom z.top new_fvg.bottom new_fvg.top = true

instance (new_fvg z : FVG) : Decidable (same_type_unfilled_overlap new_fvg z) := by
  unfold same_type_unfilled_overlap; infer_instance

/-- The condition under which the scan appends an index to
`zones_to_remove`. -/
def marked_for_removal (new_fvg z : FVG) : Bool :=
  decide (same_type_unfilled_overlap new_fvg z ∧ new_fvg.gap_size < z.gap_size)

/-- The indices (counting from `i`) that a completed scan marks for
removal. -/
def bad_indices (new_fvg : FVG) : List FVG → ℕ → List ℕ
  | [], _ => []
  | z :: rest, i =>
    if marked_for_removal new_fvg z then i :: bad_indices new_fvg rest (i + 1)
    else bad_indices new_fvg rest (i + 1)

theorem scan_rejects_iff (new_fvg : FVG) :
    ∀ (l : List FVG) (i : ℕ) (acc : List ℕ),
    (scan_marks new_fvg l i acc).1 = true ↔
      ∃ z ∈ l, same_type_unfilled_overlap new_fvg z ∧
        z.gap_size ≤ new_fvg.gap_size := by
  intro l
  induction l with
  | nil => intro i acc; simp [scan_marks]
  | cons z rest ih =>
    intro i acc
    simp only [scan_marks]
    split_ifs with h1 h2 h3 h4
    · rw [ih]
      simp only [List.mem_cons]
      constructor
      · rintro ⟨w, hw, h⟩; exact ⟨w, Or.inr hw, h⟩
      · rintro ⟨w, hw, h⟩
        rcases hw with rfl | hw'
        · exact absurd h.1.1 h1
        · exact ⟨w, hw', h⟩
    · rw [ih]
      simp only [List.mem_cons]
      constructor
      · rintro ⟨w, hw, h⟩; exact ⟨w, Or.inr hw, h⟩
      · rintro ⟨w, hw, h⟩
        rcases hw with rfl | hw'
        · exact absurd h.1.2.1 (by simp [h2])
        · exact ⟨w, hw', h⟩
    · rw [ih]
      simp only [List.mem_cons]
      constructor
      · rintro ⟨w, hw, h⟩; exact ⟨w, Or.inr hw, h⟩
      · rintro ⟨w, hw, h⟩
        rcases hw with rfl | hw'
        · exact absurd h.2 (not_le.mpr h4)
        · exact ⟨w, hw', h⟩
    · simp only [true_iff]
      refine ⟨z, List.mem_cons_self z rest,
        ⟨not_not.mp h1, by simpa using h2, h3⟩, not_lt.mp h4⟩
    · rw [ih]
      simp only [List.mem_cons]
      constructor
      · rintro ⟨w, hw, h⟩; exact ⟨w, Or.inr hw, h⟩
      · rintro ⟨w, hw, h⟩
        rcases hw with rfl | hw'
        · exact absurd h.1.2.2 h3
        · exact ⟨w, hw', h⟩

theorem scan_marks_eq_bad (new_fvg : FVG) :
    ∀ (l : List FVG) (i : ℕ) (acc : List ℕ),
    (scan_marks new_fvg l i acc).1 = false →
    (scan_marks new_fvg l i acc).2 = acc ++ bad_indices new_fvg l i := by
  intro l
  induction l with
  | nil => intro i acc _; simp [scan_marks, bad_indices]
  | cons z rest ih =>
    intro i acc
    simp only [scan_marks]
    split_ifs with h1 h2 h3 h4
    · intro hfalse
      rw [ih _ _ hfalse]
      have hm : marked_for_removal new_fvg z = false := by
        simp only [marked_for_removal, decide_eq_false_iff_not]
        rintro ⟨hs, -⟩; exact h1 hs.1
      simp [bad_indices, hm]
    · intro hfalse
      rw [ih _ _ hfalse]
      have hm : marked_for_removal new_fvg z = false := by
        simp only [marked_for_removal, decide_eq_false_iff_not]
        rintro ⟨hs, -⟩; simp [hs.2.1] at h2
      simp [bad_indices, hm]
    · intro hfalse
      rw [ih _ _ hfalse]
      have hm : marked_for_removal new_fvg z = true := by
        simp only [marked_for_removal, decide_eq_true_eq]
        exact ⟨⟨not_not.mp h1, by simpa using h2, h3⟩, h4⟩
      simp [bad_indices, hm]
    · intro hfalse; exact absurd hfalse (by simp)
    · intro hfalse
      rw [ih _ _ hfalse]
      have hm : marked_for_removal new_fvg z = false := by
        simp only [marked_for_removal, decide_eq_false_iff_not]
        rintro ⟨hs, -⟩; exact h3 hs.2.2
      simp [bad_indices, hm]

theorem bad_indices_ge (new_fvg : FVG) :
    ∀ (l : List FVG) (i j : ℕ), j ∈ bad_indices new_fvg l i → i ≤ j := by
  intro l
  induction l with
  | nil => intro i j h; simp [bad_indices] at h
  | cons z rest ih =>
    intro i j h
    by_cases hm : marked_for_removal new_fvg z
    · simp only [bad_indices, if_pos hm, List.mem_cons] at h
      rcases h with rfl | h'
      · exact le_refl j
      · exact Nat.le_of_succ_le (ih (i + 1) j h')
    · simp only [bad_indices, if_neg hm] at h
      exact Nat.le_of_succ_le (ih (i + 1) j h)

theorem mem_enumFrom_fst_ge :
    ∀ (l : List FVG) (i : ℕ) (p : ℕ × FVG), p ∈ l.enumFrom i → i ≤ p.1 := by
  intro l
  induction l with
  | nil => intro i p h; simp [List.enumFrom] at h
  | cons z rest ih =>
    intro i p h
    rw [List.enumFrom_cons] at h
    rcases List.mem_cons.mp h with rfl | h'
    · exact le_refl i
    · exact Nat.le_of_succ_le (ih (i + 1) p h')

theorem remove_bad_eq_filter (new_fvg : FVG) :
    ∀ (l : List FVG) (i : ℕ),
    ((l.enumFrom i).filter (fun p => p.1 ∉ bad_indices new_fvg l i)).map Prod.snd
      = l.filter (fun z => !marked_for_removal new_fvg z) := by
  intro l
  induction l with
  | nil => intro i; simp [List.enumFrom, bad_indices]
  | cons z rest ih =>
    intro i
    rw [List.enumFrom_cons]
    by_cases hm : marked_for_removal new_fvg z
    · have hbad : bad_indices new_fvg (z :: rest) i
          = i :: bad_indices new_fvg rest (i + 1) := by
        simp [bad_indices, hm]
      rw [hbad]
      have hne : ∀ p ∈ rest.enumFrom (i + 1),
          (decide (p.1 ∉ i :: bad_indices new_fvg rest (i + 1)))
            = (decide (p.1 ∉ bad_indices new_fvg rest (i + 1))) := by
        intro p hp
        have h1 : i + 1 ≤ p.1 := mem_enumFrom_fst_ge rest (i + 1) p hp
        have h2 : p.1 ≠ i := by omega
        simp [h2]
      simp only [List.filter_cons]
      rw [if_neg (by simp)]
      rw [List.filter_congr hne, ih]
      simp [List.filter_cons, hm]
    · have hbad : bad_indices new_fvg (z :: rest) i
          = bad_indices new_fvg rest (i + 1) := by
        simp [bad_indices, hm]
      rw [hbad]
      have hhead : i ∉ bad_indices new_fvg rest (i + 1) := by
        intro h
        have := bad_indices_ge new_fvg rest (i + 1) i h
        omega
      simp only [List.filter_cons]
      rw [if_pos (by simpa using hhead)]
      simp only [List.map_cons]
      rw [ih]
      simp [List.filter_cons, hm]

theorem remove_indices_bad (new_fvg : FVG) (l : List FVG) :
    remove_indices l (bad_indices new_fvg l 0)
      = l.filter (fun z => !marked_for_removal new_fvg z) := by
  unfold remove_indices
  rw [show l.enum = l.enumFrom 0 from rfl]
  exact remove_bad_eq_filter new_fvg l 0

theorem is_duplicate_fst (new_fvg : FVG) (l : List FVG) :
    (is_duplicate_zone new_fvg l).1 = (scan_marks new_fvg l 0 []).1 := by
  unfold is_duplicate_zone
  rcases hs : scan_marks new_fvg l 0 [] with ⟨b, marks⟩
  cases b <;> simp

/-- Core of claim C9: when the candidate is rejected, the early return
skips the pop loop, so the active list is unchanged. -/
theorem is_duplicate_true_id (new_fvg : FVG) (l : List FVG)
    (h : (is_duplicate_zone new_fvg l).1 = true) :
    (is_duplicate_zone new_fvg l).2 = l := by
  unfold is_duplicate_zone at *
  rcases hs : scan_marks new_fvg l 0 [] with ⟨b, marks⟩
  rw [hs] at h
  cases b
  · simp at h
  · simp

/-- When the candidate is accepted, the resulting list is exactly the
original minus the marked (overlapping, unfilled, same-type, larger)
zones. -/
theorem is_duplicate_false_filter (new_fvg : FVG) (l : List FVG)
    (h : (is_duplicate_zone new_fvg l).1 = false) :
    (is_duplicate_zone new_fvg l).2
      = l.filter (fun z => !marked_for_removal new_fvg z) := by
  unfold is_duplicate_zone at *
  rcases hs : scan_marks new_fvg l 0 [] with ⟨b, marks⟩
  rw [hs] at h
  cases b
  · have hmarks : marks = [] ++ bad_indices new_fvg l 0 := by
      have := scan_marks_eq_bad new_fvg l 0 [] (by rw [hs])
      rw [hs] at this
      exact this
    simp only [List.nil_append] at hmarks
    subst hmarks
    simpa using remove_indices_bad new_fvg l
  · simp at h

/-- Two zones are compatible when, if they have the same type and both
are unfilled, they do not overlap (overlap as in `zones_overlap`). -/
def compatible (a b : FVG) : Prop :=
  a.type = b.type → a.filled = false → b.filled = false →
    zones_overlap a.bottom a.top b.bottom b.top = false

instance (a b : FVG) : Decidable (compatible a b) := by
  unfold compatible; infer_instance

/-- The registry invariant: no two distinct unfilled zones of the same
type in the active set overlap. -/
def no_overlap_inv (l : List FVG) : Prop := l.Pairwise compatible

instance (l : List FVG) : Decidable (no_overlap_inv l) := by
  unfold no_overlap_inv; infer_instance

theorem insert_fvg_preserves (l : List FVG) (new_fvg : FVG)
    (hinv : no_overlap_inv l) : no_overlap_inv (insert_fvg l new_fvg) := by
  rcases hd : is_duplicate_zone new_fvg l with ⟨b, l2⟩
  cases b
  · -- accepted: marked zones are removed, then the candidate appended
    have hfil : l2 = l.filter (fun z => !marked_for_removal new_fvg z) := by
      have h2 := is_duplicate_false_filter new_fvg l (by rw [hd])
      rw [hd] at h2
      exact h2
    have hnotex : ¬ ∃ z ∈ l, same_type_unfilled_overlap new_fvg z ∧
        z.gap_size ≤ new_fvg.gap_size := by
      rw [← scan_rejects_iff new_fvg l 0 [], ← is_duplicate_fst, hd]
      simp
    push_neg at hnotex
    have hins : insert_fvg l new_fvg = l2 ++ [new_fvg] := by
      unfold insert_fvg
      rw [hd]
    rw [hins, hfil]
    rw [no_overlap_inv, List.pairwise_append]
    refine ⟨List.Pairwise.sublist (List.filter_sublist l) hinv,
      List.pairwise_singleton _ _, ?_⟩
    intro a ha w hw
    rcases List.mem_singleton.mp hw with rfl
    intro hty hfa hfb
    by_contra hov
    have hov' : zones_overlap a.bottom a.top w.bottom w.top = true := by
      revert hov
      cases zones_overlap a.bottom a.top w.bottom w.top <;> simp
    rcases List.mem_filter.mp ha with ⟨hal, hmf⟩
    have hst : same_type_unfilled_overlap w a := ⟨hty, hfa, hov'⟩
    have hlt : w.gap_size < a.gap_size := hnotex a hal hst
    have hmt : marked_for_removal w a = true := by
      simp [marked_for_removal, hst, hlt]
    simp [hmt] at hmf
  · -- rejected: registry unchanged
    have hl2 : l2 = l := by
      have h2 := is_duplicate_true_id new_fvg l (by rw [hd])
      rw [hd] at h2
      exact h2
    have hins : insert_fvg l new_fvg = l2 := by
      unfold insert_fvg
      rw [hd]
    rw [hins, hl2]
    exact hinv

/-- C1: for every sequence of candidate-zone insertions into the
registry (each performed as the duplicate/overlap check followed by an
append when not rejected), after every insertion no two distinct
unfilled zones of the same type in the active set overlap
(overlap(a,b) iff not (a.bottom ≥ b.top or b.bottom ≥ a.top)).  Stated
as: the invariant is preserved by any fold of insertions from any state
satisfying it; every intermediate state is such a fold. -/
theorem c1_insert_sequence_no_overlap (cands : List FVG) (l0 : List FVG)
    (h : no_overlap_inv l0) : no_overlap_inv (cands.foldl insert_fvg l0) := by
  induction cands generalizing l0 with
  | nil => simpa using h
  | cons c rest ih => exact ih (insert_fvg l0 c) (insert_fvg_preserves l0 c h)

/-- Example zone of spec §8 Example 2: Bullish `{bottom:100, top:110}`
with gap 10. -/
def fvg_ex_bull10 : FVG := ⟨FVGType.bullish, 110, 100, 10, 2, false⟩

/-- Example candidate of spec §8 Example 2: Bullish
`{bottom:102, top:108}` with gap 6. -/
def fvg_ex_bull6 : FVG := ⟨FVGType.bullish, 108, 102, 6, 5, false⟩

/-- Witness for C1 at a concrete insertion sequence. -/
theorem c1_insert_sequence_no_overlap_witness :
    no_overlap_inv ([fvg_ex_bull10, fvg_ex_bull6].foldl insert_fvg []) :=
  c1_insert_sequence_no_overlap [fvg_ex_bull10, fvg_ex_bull6] [] (by decide)

/-- C2: a candidate is rejected iff some existing unfilled zone of the
same type overlaps it with gap size ≤ the candidate's (ties reject);
when accepted, every overlapping unfilled same-type zone (each of
strictly larger gap) is removed and the candidate appended;
and the concrete Example-2 instance. -/
theorem c2_insert_candidate_spec (l : List FVG) (new_fvg : FVG) :
    ((is_duplicate_zone new_fvg l).1 = true ↔
      ∃ z ∈ l, same_type_unfilled_overlap new_fvg z ∧
        z.gap_size ≤ new_fvg.gap_size)
    ∧ ((is_duplicate_zone new_fvg l).1 = true → insert_fvg l new_fvg = l)
    ∧ ((is_duplicate_zone new_fvg l).1 = false →
        (∀ z ∈ l, same_type_unfilled_overlap new_fvg z →
          new_fvg.gap_size < z.gap_size)
        ∧ insert_fvg l new_fvg
            = l.filter (fun z => ¬ same_type_unfilled_overlap new_fvg z)
              ++ [new_fvg])
    ∧ insert_fvg [fvg_ex_bull10] fvg_ex_bull6 = [fvg_ex_bull6] := by
  refine ⟨?_, ?_, ?_, by decide⟩
  · rw [is_duplicate_fst]
    exact scan_rejects_iff new_fvg l 0 []
  · intro h
    unfold insert_fvg
    rcases hd : is_duplicate_zone new_fvg l with ⟨b, l2⟩
    rw [hd] at h
    cases b
    · simp at h
    · have h2 := is_duplicate_true_id new_fvg l (by rw [hd])
      rw [hd] at h2
      exact h2
  · intro h
    have hall : ∀ z ∈ l, same_type_unfilled_overlap new_fvg z →
        new_fvg.gap_size < z.gap_size := by
      have hne : ¬ (is_duplicate_zone new_fvg l).1 = true := by simp [h]
      rw [is_duplicate_fst, scan_rejects_iff] at hne
      push_neg at hne
      intro z hz hst
      exact hne z hz hst
    refine ⟨hall, ?_⟩
    have hfil := is_duplicate_false_filter new_fvg l h
    have hins : insert_fvg l new_fvg = (is_duplicate_zone new_fvg l).2 ++ [new_fvg] := by
      unfold insert_fvg
      rcases hd : is_duplicate_zone new_fvg l with ⟨b, l2⟩
      rw [hd] at h
      cases b
      · rfl
      · simp at h
    rw [hins, hfil]
    congr 1
    apply List.filter_congr
    intro z hz
    by_cases hst : same_type_unfilled_overlap new_fvg z
    · have hlt := hall z hz hst
      simp [marked_for_removal, hst, hlt]
    · simp [marked_for_removal, hst]

/-- Witness for C2 at a concrete accepted insertion (Example 2). -/
theorem c2_insert_candidate_spec_witness :
    (∀ z ∈ [fvg_ex_bull10], same_type_unfilled_overlap fvg_ex_bull6 z →
      fvg_ex_bull6.gap_size < z.gap_size)
    ∧ insert_fvg [fvg_ex_bull10] fvg_ex_bull6
        = [fvg_ex_bull10].filter
            (fun z => ¬ same_type_unfilled_overlap fvg_ex_bull6 z)
          ++ [fvg_ex_bull6] :=
  (c2_insert_candidate_spec [fvg_ex_bull10] fvg_ex_bull6).2.2.1 (by decide)

/-- C9: rejected insertion is atomic: whenever the duplicate/overlap
check rejects the candidate, no existing zone is removed — not even
zones already marked for removal earlier in the same scan — and the
active set after the call equals the active set before it. -/
theorem c9_rejected_insert_atomic (l : List FVG) (new_fvg : FVG)
    (h : (is_duplicate_zone new_fvg l).1 = true) :
    (is_duplicate_zone new_fvg l).2 = l ∧ insert_fvg l new_fvg = l := by
  have h2 := is_duplicate_true_id new_fvg l h
  refine ⟨h2, ?_⟩
  unfold insert_fvg
  rcases hd : is_duplicate_zone new_fvg l with ⟨b, l2⟩
  rw [hd] at h h2
  cases b
  · simp at h
  · exact h2

/-- A rejection scenario in which an earlier zone was already marked
for removal when the rejecting zone is met: the candidate (gap 6)
first beats a larger zone (gap 10) and is then rejected by an equal
zone (gap 6); nothing is removed. -/
def fvg_ex_bull6b : FVG := ⟨FVGType.bullish, 109, 103, 6, 3, false⟩

/-- Witness for C9: concrete rejection after an earlier mark. -/
theorem c9_rejected_insert_atomic_witness :
    (is_duplicate_zone fvg_ex_bull6 [fvg_ex_bull10, fvg_ex_bull6b]).2
        = [fvg_ex_bull10, fvg_ex_bull6b]
    ∧ insert_fvg [fvg_ex_bull10, fvg_ex_bull6b] fvg_ex_bull6
        = [fvg_ex_bull10, fvg_ex_bull6b] :=
  c9_rejected_insert_atomic [fvg_ex_bull10, fvg_ex_bull6b] fvg_ex_bull6 (by decide)

/-! ## Gap detector (claim C3) -/

theorem flatMap_toList_eq_filterMap (f : ℕ → Option FVG) (g : ℕ → List FVG) :
    ∀ (L : List ℕ), (∀ i ∈ L, g i = (f i).toList) →
      L.flatMap g = L.filterMap f := by
  intro L
  induction L with
  | nil => intro _; rfl
  | cons x xs ih =>
    intro h
    rw [List.flatMap_cons, List.filterMap_cons]
    have hx := h x (List.mem_cons_self x xs)
    have hxs := ih (fun i hi => h i (List.mem_cons_of_mem x hi))
    cases hf : f x with
    | none => rw [hx, hf]; simpa using hxs
    | some z => rw [hx, hf]; simpa using hxs

theorem gapDetectorSpecAt_eq (df : List Bar)
    (hwf : ∀ b ∈ df, b.low ≤ b.high) (i : ℕ) :
    gapDetectorSpecAt 5 df i = (fvg_at df i).toList := by
  unfold gapDetectorSpecAt fvg_at
  cases h1 : df.get? (i - 2) with
  | none => rfl
  | some c1 =>
    cases h3 : df.get? i with
    | none => rfl
    | some c3 =>
      have hw1 := hwf c1 (List.get?_mem h1)
      have hw3 := hwf c3 (List.get?_mem h3)
      by_cases hb : c3.low > c1.high
      · have hnb : ¬ c3.high < c1.low := by linarith
        by_cases hg : c3.low - c1.high ≥ 5
        · simp [hb, hg, hnb]
        · simp [hb, hg, hnb]
      · by_cases hbe : c3.high < c1.low
        · by_cases hg : c1.low - c3.high ≥ 5
          · simp [hb, hbe, hg]
          · simp [hb, hbe, hg]
        · simp [hb, hbe]

/-- C3: the gap detector equals its reference definition written from
the spec (Bullish candidate iff `bar[i].low > bar[i-2].high` with
`top = bar[i].low`, `bottom = bar[i-2].high`, `gapSize = top - bottom`;
Bearish mirrored; candidates below the minimum gap size discarded) for
every well-formed bar series; the two firing conditions are mutually
exclusive on well-formed triples; and fewer than 3 bars yields an
empty result. -/
theorem c3_gap_detector_ref (df : List Bar)
    (hwf : ∀ b ∈ df, b.low ≤ b.high) :
    find_fvgs_in_data df = gapDetectorSpec 5 df
    ∧ (df.length < 3 → find_fvgs_in_data df = [])
    ∧ (∀ i c1 c3, df.get? (i - 2) = some c1 → df.get? i = some c3 →
        ¬(c3.low > c1.high ∧ c3.high < c1.low)) := by
  refine ⟨?_, ?_, ?_⟩
  · unfold find_fvgs_in_data gapDetectorSpec
    symm
    exact flatMap_toList_eq_filterMap _ _ _
      (fun i _ => gapDetectorSpecAt_eq df hwf i)
  · intro hlen
    unfold find_fvgs_in_data
    have hdrop : (List.range df.length).drop 2 = [] := by
      apply List.drop_eq_nil_of_le
      rw [List.length_range]
      omega
    rw [hdrop]
    rfl
  · rintro i c1 c3 h1 h3 ⟨hb, hbe⟩
    have hw1 := hwf c1 (List.get?_mem h1)
    have hw3 := hwf c3 (List.get?_mem h3)
    linarith

/-- Spec §8 Example 1 bars: `bar[0].high = 100`, `bar[2].low = 110`,
gap 10 ≥ threshold 5. -/
def example_bars : List Bar :=
  [⟨90, 100, 80, 95⟩, ⟨95, 105, 85, 100⟩, ⟨112, 120, 110, 115⟩]

/-- Witness for C3 on the Example-1 bar series. -/
theorem c3_gap_detector_ref_witness :
    find_fvgs_in_data example_bars = gapDetectorSpec 5 example_bars ∧
    find_fvgs_in_data example_bars
      = [⟨FVGType.bullish, 110, 100, 10, 2, false⟩] :=
  ⟨(c3_gap_detector_ref example_bars (by decide)).1, by
    norm_num [find_fvgs_in_data, example_bars, fvg_at, List.range_succ,
      List.filterMap_cons, List.get?]⟩

/-! ## Risk gate claims -/

/-- Short-circuit evaluation of an ordered list of (failure condition,
reason) checks: the first failing check decides the result; if none
fails the trade is allowed with reason "OK". -/
def first_failing : List (Bool × String) → Bool × String
  | [] => (true, "OK")
  | c :: rest => if c.1 then (false, c.2) else first_failing rest

/-- The policy portion of the spec's ordered check list (§4.3): every
check after the Halted/Cooldown gates, in the spec's order. -/
def policy_checks (cfg : RiskConfig) (m : RiskMetrics)
    (direction : String) (entry stop target : ℚ) (quantity : ℤ)
    (confidence : ℚ) : List (Bool × String) :=
  [ (m.daily_trades ≥ cfg.max_daily_trades, "Daily trade limit reached"),
    (m.daily_pnl ≤ -cfg.max_daily_loss, "Daily loss limit reached"),
    (m.consecutive_losses ≥ cfg.max_consecutive_losses, "Consecutive loss limit"),
    (quantity > cfg.max_position_size, "Position size exceeds max"),
    (|entry - stop| < cfg.stop_loss_min, "Stop too tight"),
    (|entry - stop| > cfg.stop_loss_max, "Stop too wide"),
    (risk_reward_of entry stop target < cfg.min_risk_reward, "R-R below min"),
    (confidence < cfg.confidence_threshold, "Confidence below threshold"),
    (direction = "LONG" ∧ stop ≥ entry, "LONG stop must be below entry"),
    (direction = "SHORT" ∧ stop ≤ entry, "SHORT stop must be above entry"),
    (direction = "LONG" ∧ target ≤ entry, "LONG target must be above entry"),
    (direction = "SHORT" ∧ target ≥ entry, "SHORT target must be below entry"),
    (m.daily_volume + quantity > 50, "Daily volume limit would be exceeded") ]

/-- The full ordered check list of the spec (§4.3): state not Halted,
no active cooldown, then the policy checks. -/
def pre_trade_checks (cfg : RiskConfig) (m : RiskMetrics) (now : ℚ)
    (direction : String) (entry stop target : ℚ) (quantity : ℤ)
    (confidence : ℚ) : List (Bool × String) :=
  (m.state = RiskStateE.halted, "Trading halted: " ++ m.state_reason)
    :: (m.state = RiskStateE.cooldown ∧ get_cooldown_remaining cfg m now > 0,
      "Cooldown active")
    :: policy_checks cfg m direction entry stop target quantity confidence

theorem check_pre_trade_policy_cascade (cfg : RiskConfig) (m1 : RiskMetrics)
    (direction : String) (entry stop target : ℚ) (quantity : ℤ)
    (confidence : ℚ) :
    (check_pre_trade_policy cfg m1 direction entry stop target quantity
        confidence).2
      = first_failing (policy_checks cfg m1 direction entry stop target
          quantity confidence) := by
  simp only [check_pre_trade_policy, policy_checks, first_failing]
  simp only [decide_eq_true_eq, Bool.and_eq_true]
  by_cases h1 : m1.daily_trades ≥ cfg.max_daily_trades
  · simp only [if_pos h1]
  simp only [if_neg h1]
  by_cases h2 : m1.daily_pnl ≤ -cfg.max_daily_loss
  · simp only [if_pos h2]
  simp only [if_neg h2]
  by_cases h3 : m1.consecutive_losses ≥ cfg.max_consecutive_losses
  · simp only [if_pos h3]
  simp only [if_neg h3]
  by_cases h4 : quantity > cfg.max_position_size
  · simp only [if_pos h4]
  simp only [if_neg h4]
  by_cases h5 : |entry - stop| < cfg.stop_loss_min
  · simp only [if_pos h5]
  simp only [if_neg h5]
  by_cases h6 : |entry - stop| > cfg.stop_loss_max
  · simp only [if_pos h6]
  simp only [if_neg h6]
  by_cases h7 : risk_reward_of entry stop target < cfg.min_risk_reward
  · simp only [if_pos h7]
  simp only [if_neg h7]
  by_cases h8 : confidence < cfg.confidence_threshold
  · simp only [if_pos h8]
  simp only [if_neg h8]
  by_cases h9 : direction = "LONG" ∧ stop ≥ entry
  · simp only [if_pos h9]
  simp only [if_neg h9]
  by_cases h10 : direction = "SHORT" ∧ stop ≤ entry
  · simp only [if_pos h10]
  simp only [if_neg h10]
  by_cases h11 : direction = "LONG" ∧ target ≤ entry
  · simp only [if_pos h11]
  simp only [if_neg h11]
  by_cases h12 : direction = "SHORT" ∧ target ≥ entry
  · simp only [if_pos h12]
  simp only [if_neg h12]
  by_cases h13 : m1.daily_volume + quantity > 50
  · simp only [if_pos h13]
  simp only [if_neg h13]

set_option maxRecDepth 4000 in
/-- C4: `check_pre_trade` always returns a structured (allowed, reason)
pair (it is a total function of its inputs) equal to the
short-circuiting cascade of the spec's checks, in the spec's order:
Halted; active Cooldown; daily trade limit; daily loss limit;
consecutive-loss limit; position size; stop distance bounds;
risk/reward; confidence; stop side; target side; daily volume cap. -/
theorem c4_check_pre_trade_order (cfg : RiskConfig) (m : RiskMetrics) (now : ℚ)
    (direction : String) (entry stop target : ℚ) (quantity : ℤ)
    (confidence : ℚ) :
    (check_pre_trade cfg m now direction entry stop target quantity
        confidence).2
      = first_failing (pre_trade_checks cfg m now direction entry stop target
          quantity confidence) := by
  simp only [check_pre_trade, pre_trade_checks, first_failing]
  simp only [decide_eq_true_eq, Bool.and_eq_true]
  by_cases h1 : m.state = RiskStateE.halted
  · simp only [if_pos h1]
  simp only [if_neg h1]
  by_cases h2 : m.state = RiskStateE.cooldown ∧
      get_cooldown_remaining cfg m now > 0
  · simp only [if_pos h2]
  simp only [if_neg h2]
  by_cases h3 : m.state = RiskStateE.cooldown
  · simp only [if_pos h3]
    rw [check_pre_trade_policy_cascade]
    simp only [policy_checks, first_failing, decide_eq_true_eq,
      Bool.and_eq_true]
  · simp only [if_neg h3]
    rw [check_pre_trade_policy_cascade]
    simp only [policy_checks, first_failing, decide_eq_true_eq,
      Bool.and_eq_true]

/-- The default risk configuration of `config_manager.py`:
`max_daily_trades 5`, `max_daily_loss 100`, `max_consecutive_losses 3`,
`max_position_size 10`, `stop_loss_min 15`, `stop_loss_max 50`,
`max_drawdown_percent 5.0`, `cool_down_after_loss_minutes 15`,
`min_risk_reward 3.0`, `confidence_threshold 0.65`. -/
def default_config : RiskConfig :=
  { max_daily_trades := 5
    max_daily_loss := 100
    max_consecutive_losses := 3
    max_position_size := 10
    stop_loss_min := 15
    stop_loss_max := 50
    max_drawdown_percent := 5
    cool_down_after_loss_minutes := 15
    min_risk_reward := 3
    confidence_threshold := 13/20 }

/-- Fresh metrics: `Normal` state, all counters zero. -/
def fresh_metrics : RiskMetrics := {}

/-- C5 counterexample: with `entry == stop` on fresh metrics and the
default configuration, `check_pre_trade` rejects with the
stop-distance reason "Stop too tight" — not with a "zero risk"
reason (no such reason exists in the code's reason inventory). -/
theorem c5_zero_risk_counterexample :
    (check_pre_trade default_config fresh_metrics 0 "LONG" 100 100 120 1
        (7/10)).2
      = (false, "Stop too tight") := by
  norm_num [check_pre_trade, check_pre_trade_policy, fresh_metrics,
    default_config, get_cooldown_remaining, risk_reward_of]
  rfl

/-- C5 amended: with `entry == stop` the risk/reward division is
guarded (the ratio evaluates to 0 rather than raising), and the trade
is rejected — but by the minimum-stop-distance check with reason
"Stop too tight" (whenever `stop_loss_min > 0` and the earlier state /
limit checks pass), not by a dedicated "zero risk" reason. -/
theorem c5_zero_risk_amended (cfg : RiskConfig) (m : RiskMetrics) (now : ℚ)
    (direction : String) (entry target : ℚ) (quantity : ℤ) (confidence : ℚ)
    (hstate : m.state = RiskStateE.normal)
    (htrades : m.daily_trades < cfg.max_daily_trades)
    (hpnl : -cfg.max_daily_loss < m.daily_pnl)
    (hcl : m.consecutive_losses < cfg.max_consecutive_losses)
    (hq : quantity ≤ cfg.max_position_size)
    (hmin : 0 < cfg.stop_loss_min) :
    risk_reward_of entry entry target = 0
    ∧ check_pre_trade cfg m now direction entry entry target quantity
        confidence = (m, false, "Stop too tight") := by
  constructor
  · unfold risk_reward_of
    simp
  · have hc1 : ¬(m.state = RiskStateE.halted) := by simp [hstate]
    have hc2 : ¬(m.state = RiskStateE.cooldown ∧
        get_cooldown_remaining cfg m now > 0) := by simp [hstate]
    have hc3 : ¬(m.state = RiskStateE.cooldown) := by simp [hstate]
    have hc4 : ¬(m.daily_trades ≥ cfg.max_daily_trades) := by omega
    have hc5 : ¬(m.daily_pnl ≤ -cfg.max_daily_loss) := by
      intro hcx; linarith
    have hc6 : ¬(m.consecutive_losses ≥ cfg.max_consecutive_losses) := by omega
    have hc7 : ¬(quantity > cfg.max_position_size) := by omega
    have hc8 : |entry - entry| < cfg.stop_loss_min := by simpa using hmin
    unfold check_pre_trade check_pre_trade_policy
    rw [if_neg hc1, if_neg hc2, if_neg hc3, if_neg hc4, if_neg hc5,
      if_neg hc6, if_neg hc7, if_pos hc8]

/-- Witness for the amended C5 at the default configuration. -/
theorem c5_zero_risk_amended_witness :
    risk_reward_of 100 100 120 = 0
    ∧ check_pre_trade default_config fresh_metrics 0 "LONG" 100 100 120 1
        (7/10) = (fresh_metrics, false, "Stop too tight") :=
  c5_zero_risk_amended default_config fresh_metrics 0 "LONG" 100 120 1 (7/10)
    (by decide) (by decide) (by norm_num [default_config, fresh_metrics])
    (by decide) (by decide) (by norm_num [default_config])

/-- Lemma: `_check_risk_limits` halts whenever any of the three limit
conditions holds of its result (its numeric fields are those of its
argument). -/
theorem check_risk_limits_halts (cfg : RiskConfig) (M : RiskMetrics)
    (h : (check_risk_limits cfg M).daily_pnl ≤ -cfg.max_daily_loss
      ∨ (check_risk_limits cfg M).consecutive_losses ≥
          cfg.max_consecutive_losses
      ∨ (check_risk_limits cfg M).current_drawdown ≥
          cfg.max_drawdown_percent) :
    (check_risk_limits cfg M).state = RiskStateE.halted := by
  unfold check_risk_limits halt_trading at h ⊢
  split_ifs at h ⊢ with a b c
  · rfl
  · rfl
  · rfl
  · rcases h with h | h | h
    · exact absurd h a
    · exact absurd h b
    · exact absurd h c

/-- Inside the policy chain, a breached daily-loss or consecutive-loss
limit halts trading (once the daily-trade check has passed). -/
theorem check_pre_trade_policy_halts (cfg : RiskConfig) (M : RiskMetrics)
    (direction : String) (entry stop target : ℚ) (quantity : ℤ)
    (confidence : ℚ) (htr : M.daily_trades < cfg.max_daily_trades) :
    (M.daily_pnl ≤ -cfg.max_daily_loss →
      check_pre_trade_policy cfg M direction entry stop target quantity
          confidence
        = (halt_trading M "Daily loss limit reached", false,
            "Daily loss limit reached"))
    ∧ (-cfg.max_daily_loss < M.daily_pnl →
        M.consecutive_losses ≥ cfg.max_consecutive_losses →
        check_pre_trade_policy cfg M direction entry stop target quantity
            confidence
          = (halt_trading M "Consecutive loss limit reached", false,
              "Consecutive loss limit")) := by
  constructor
  · intro hpnl
    unfold check_pre_trade_policy
    rw [if_neg (by omega), if_pos hpnl]
  · intro hpnl hcl
    unfold check_pre_trade_policy
    rw [if_neg (by omega), if_neg (by intro hx; linarith), if_pos hcl]

/-- The metrics after three successive breakeven losing exits
(`RecordExit(..., result=Loss)` with `entry == exit`, so the daily-loss
limit is not also breached) starting from fresh metrics under the
default configuration (spec §8 Example 4 with `maxConsecutiveLosses=3`). -/
def after_three_losses : RiskMetrics :=
  record_trade_exit default_config
    (record_trade_exit default_config
      (record_trade_exit default_config fresh_metrics 0 "LONG" 100 100 1
        "LOSS")
      60 "LONG" 100 100 1 "LOSS")
    120 "LONG" 100 100 1 "LOSS"

/-- Metrics whose drawdown breaches the default 5% limit while every
other counter is clean. -/
def drawdown_metrics : RiskMetrics := { current_drawdown := 10 }

/-- C6 counterexample: with `drawdownPct ≥ maxDrawdownPct` (10 ≥ 5) and
every other limit clean, `check_pre_trade` does not transition to
Halted — it leaves the state `Normal` and even allows the trade; the
drawdown condition is only evaluated in `_check_risk_limits` after an
exit, never inside `check_pre_trade`. -/
theorem c6_drawdown_not_checked_counterexample :
    drawdown_metrics.current_drawdown ≥ default_config.max_drawdown_percent
    ∧ drawdown_metrics.state = RiskStateE.normal
    ∧ check_pre_trade default_config drawdown_metrics 0 "LONG" 100 80 160 1
        (7/10) = (drawdown_metrics, true, "OK") := by
  refine ⟨by norm_num [drawdown_metrics, default_config], rfl, ?_⟩
  norm_num [check_pre_trade, check_pre_trade_policy, drawdown_metrics,
    default_config, get_cooldown_remaining, risk_reward_of,
    show (("LONG" : String) = "SHORT") = False from by decide,
    show (("LONG" : String) = "LONG") = True from by decide,
    show (RiskStateE.normal = RiskStateE.halted) = False from by decide,
    show (RiskStateE.normal = RiskStateE.cooldown) = False from by decide]

/-- C6 amended: (1) after every `RecordExit`, the gate is Halted
whenever `dailyPnl ≤ -maxDailyLoss`, `consecutiveLosses ≥
maxConsecutiveLosses` or `drawdownPct ≥ maxDrawdownPct` holds of the
resulting metrics; (2) inside `CheckPreTrade` the daily-loss and
consecutive-loss conditions (but not drawdown) halt defensively once
the earlier checks pass; (3) with `maxConsecutiveLosses = 3`, after
three sequential losing exits the state is Halted and every subsequent
`CheckPreTrade` returns `(false, ...)` citing the consecutive-loss
limit, regardless of its other parameters. -/
theorem c6_halt_transitions_amended :
    (∀ (cfg : RiskConfig) (m : RiskMetrics) (now : ℚ) (direction : String)
        (entry_price exit_price : ℚ) (quantity : ℤ) (result : String),
      ((record_trade_exit cfg m now direction entry_price exit_price quantity
            result).daily_pnl ≤ -cfg.max_daily_loss
        ∨ (record_trade_exit cfg m now direction entry_price exit_price
            quantity result).consecutive_losses ≥ cfg.max_consecutive_losses
        ∨ (record_trade_exit cfg m now direction entry_price exit_price
            quantity result).current_drawdown ≥ cfg.max_drawdown_percent) →
      (record_trade_exit cfg m now direction entry_price exit_price quantity
          result).state = RiskStateE.halted)
    ∧ (∀ (cfg : RiskConfig) (m : RiskMetrics) (now : ℚ) (direction : String)
        (entry stop target : ℚ) (quantity : ℤ) (confidence : ℚ),
        m.state ≠ RiskStateE.halted →
        ¬(m.state = RiskStateE.cooldown ∧
          get_cooldown_remaining cfg m now > 0) →
        m.daily_trades < cfg.max_daily_trades →
        ((m.daily_pnl ≤ -cfg.max_daily_loss →
            (check_pre_trade cfg m now direction entry stop target quantity
                confidence).1.state = RiskStateE.halted)
          ∧ (-cfg.max_daily_loss < m.daily_pnl →
              m.consecutive_losses ≥ cfg.max_consecutive_losses →
              (check_pre_trade cfg m now direction entry stop target quantity
                  confidence).1.state = RiskStateE.halted)))
    ∧ after_three_losses.state = RiskStateE.halted
    ∧ after_three_losses.state_reason = "Consecutive loss limit reached"
    ∧ (∀ (now : ℚ) (direction : String) (entry stop target : ℚ)
        (quantity : ℤ) (confidence : ℚ),
        (check_pre_trade default_config after_three_losses now direction
            entry stop target quantity confidence).2
          = (false, "Trading halted: Consecutive loss limit reached")) := by
  have hs : after_three_losses.state = RiskStateE.halted := by
    norm_num [after_three_losses, record_trade_exit, start_cooldown,
      check_risk_limits, halt_trading, fresh_metrics, default_config,
      show (("LOSS" : String) = "WIN") = False from by decide,
      show (("LOSS" : String) = "LOSS") = True from by decide,
      show (RiskStateE.normal = RiskStateE.halted) = False from by decide,
      show (RiskStateE.cooldown = RiskStateE.halted) = False from by decide,
      show (RiskStateE.halted = RiskStateE.halted) = True from by decide,
      show (RiskStateE.cooldown = RiskStateE.cooldown) = True from by decide]
  have hr : after_three_losses.state_reason
      = "Consecutive loss limit reached" := by
    norm_num [after_three_losses, record_trade_exit, start_cooldown,
      check_risk_limits, halt_trading, fresh_metrics, default_config,
      show (("LOSS" : String) = "WIN") = False from by decide,
      show (("LOSS" : String) = "LOSS") = True from by decide,
      show (RiskStateE.normal = RiskStateE.halted) = False from by decide,
      show (RiskStateE.cooldown = RiskStateE.halted) = False from by decide,
      show (RiskStateE.halted = RiskStateE.halted) = True from by decide,
      show (RiskStateE.cooldown = RiskStateE.cooldown) = True from by decide]
  refine ⟨?_, ?_, hs, hr, ?_⟩
  · intro cfg m now direction entry_price exit_price quantity result h
    unfold record_trade_exit at h ⊢
    exact check_risk_limits_halts cfg _ h
  · intro cfg m now direction entry stop target quantity confidence hstate
      hcool htr
    constructor
    · intro hpnl
      unfold check_pre_trade
      rw [if_neg hstate, if_neg hcool]
      by_cases h3 : m.state = RiskStateE.cooldown
      · rw [if_pos h3]
        rw [(check_pre_trade_policy_halts cfg
          { m with state := RiskStateE.normal, state_reason := "" } direction
          entry stop target quantity confidence htr).1 hpnl]
        rfl
      · rw [if_neg h3]
        rw [(check_pre_trade_policy_halts cfg m direction entry stop target
          quantity confidence htr).1 hpnl]
        rfl
    · intro hpnl hcl
      unfold check_pre_trade
      rw [if_neg hstate, if_neg hcool]
      by_cases h3 : m.state = RiskStateE.cooldown
      · rw [if_pos h3]
        rw [(check_pre_trade_policy_halts cfg
          { m with state := RiskStateE.normal, state_reason := "" } direction
          entry stop target quantity confidence htr).2 hpnl hcl]
        rfl
      · rw [if_neg h3]
        rw [(check_pre_trade_policy_halts cfg m direction entry stop target
          quantity confidence htr).2 hpnl hcl]
        rfl
  · intro now direction entry stop target quantity confidence
    unfold check_pre_trade
    rw [if_pos hs, hr]
    rfl

/-- Witness for the amended C6: a single max-size losing exit halts the
gate through the daily-loss limit. -/
theorem c6_halt_transitions_amended_witness :
    (record_trade_exit default_config fresh_metrics 0 "LONG" 100 0 1
        "LOSS").state = RiskStateE.halted :=
  c6_halt_transitions_amended.1 default_config fresh_metrics 0 "LONG" 100 0 1
    "LOSS" (Or.inl (by
      norm_num [record_trade_exit, start_cooldown, check_risk_limits,
        halt_trading, fresh_metrics, default_config,
        show (("LOSS" : String) = "WIN") = False from by decide,
        show (("LOSS" : String) = "LOSS") = True from by decide,
        show (RiskStateE.normal = RiskStateE.halted) = False from by decide,
        show (RiskStateE.cooldown = RiskStateE.halted) = False from by decide,
        show (RiskStateE.halted = RiskStateE.halted) = True from by decide,
        show (RiskStateE.cooldown = RiskStateE.cooldown) = True from
          by decide]))

/-! ## Exit-planner claims -/

theorem check_time_exit_iff (bars_in_trade : ℕ) (current_pnl : ℚ)
    (exit_plan : ExitPlanL) (h : bars_in_trade ≥ exit_plan.time_limit_bars) :
    check_time_exit bars_in_trade current_pnl exit_plan = true ↔
      (0 ≤ current_pnl ∨ (-10 < current_pnl ∧ current_pnl < 0)) := by
  unfold check_time_exit
  rw [if_pos h]
  by_cases hp : current_pnl ≥ 0
  · simp only [if_pos hp, true_iff]
    exact Or.inl hp
  · rw [if_neg hp]
    by_cases hsl : current_pnl > -10
    · simp only [if_pos hsl, true_iff]
      exact Or.inr ⟨hsl, lt_of_not_ge hp⟩
    · simp only [if_neg hsl, Bool.false_eq_true, false_iff]
      rintro (h0 | ⟨hgt, hlt⟩)
      · exact hp h0
      · exact hsl hgt

/-- The exit plan of spec §8 Example 3:
`CreatePlan(Long, entry=100, stop=90, target=140, qty=10)`. -/
def example_plan : ExitPlanL := create_exit_plan "LONG" 100 90 140 10

/-- C7: once `barsHeld ≥ plan.timeLimitBars` and no reversal has
triggered, a close is recommended iff the current P/L is ≥ 0 or a
small loss strictly between -10 and 0; with P/L ≤ -10 the position
continues.  In particular `barsHeld == timeLimitBars` with
`currentPnl == -15` yields no close. -/
theorem c7_time_exit_rule :
    (∀ (direction : String) (entry current_price current_stop : ℚ)
        (exit_plan : ExitPlanL) (partials_taken bars_in_trade : ℕ)
        (highest_since_entry lowest_since_entry ema21 ema75 : ℚ)
        (recent_bars : List Bar),
      bars_in_trade ≥ exit_plan.time_limit_bars →
      ¬(recent_bars ≠ [] ∧ detect_reversal direction current_price ema21
          ema75 recent_bars) →
      ((get_exit_recommendation direction entry current_price current_stop
            exit_plan partials_taken bars_in_trade highest_since_entry
            lowest_since_entry ema21 ema75 recent_bars).close_position = true
        ↔ (0 ≤ (if direction = "LONG" then current_price - entry
                else entry - current_price)
            ∨ (-10 < (if direction = "LONG" then current_price - entry
                  else entry - current_price)
              ∧ (if direction = "LONG" then current_price - entry
                  else entry - current_price) < 0))))
    ∧ (get_exit_recommendation "LONG" 100 85 90 example_plan 0
        example_plan.time_limit_bars 105 85 0 0 []).close_position = false := by
  constructor
  · intro direction entry current_price current_stop exit_plan partials_taken
      bars_in_trade highest_since_entry lowest_since_entry ema21 ema75
      recent_bars hbars hnorev
    simp only [get_exit_recommendation]
    rw [if_neg hnorev]
    by_cases hte : check_time_exit bars_in_trade
        (if direction = "LONG" then current_price - entry
          else entry - current_price) exit_plan = true
    · rw [if_pos hte]
      simp only [true_iff]
      exact (check_time_exit_iff _ _ _ hbars).mp hte
    · rw [if_neg hte]
      simp only [Bool.false_eq_true, false_iff]
      intro hc
      exact hte ((check_time_exit_iff _ _ _ hbars).mpr hc)
  · norm_num [get_exit_recommendation, example_plan, create_exit_plan,
      check_time_exit, int_trunc,
      show (("LONG" : String) = "LONG") = True from by decide]

/-- Witness for C7 at a concrete profitable time exit. -/
theorem c7_time_exit_rule_witness :
    (get_exit_recommendation "LONG" 100 112 90 example_plan 0 25 112 100 0 0
        []).close_position = true
      ↔ (0 ≤ ((112 : ℚ) - 100) ∨ (-10 < ((112 : ℚ) - 100)
          ∧ ((112 : ℚ) - 100) < 0)) := by
  have h := c7_time_exit_rule.1 "LONG" 100 112 90 example_plan 0 25 112 100
    0 0 [] (by norm_num [example_plan, create_exit_plan]) (by simp)
  simpa using h

/-- C8: `get_position_size` starts from
`min(baseSize, maxPositionSize)`, halves (floor, min 1) when
`consecutiveLosses ≥ 2`, halves again (floor, min 1) when
`dailyTrades ≥ maxDailyTrades - 1`, and both reductions compound on the
same request. -/
theorem c8_suggested_size (cfg : RiskConfig) (m : RiskMetrics)
    (base_size : ℤ) :
    (¬(m.consecutive_losses ≥ 2) →
      ¬(m.daily_trades ≥ cfg.max_daily_trades - 1) →
      get_position_size cfg m base_size
        = min base_size cfg.max_position_size)
    ∧ (m.consecutive_losses ≥ 2 →
        ¬(m.daily_trades ≥ cfg.max_daily_trades - 1) →
        get_position_size cfg m base_size
          = max 1 (Int.fdiv (min base_size cfg.max_position_size) 2))
    ∧ (¬(m.consecutive_losses ≥ 2) →
        m.daily_trades ≥ cfg.max_daily_trades - 1 →
        get_position_size cfg m base_size
          = max 1 (Int.fdiv (min base_size cfg.max_position_size) 2))
    ∧ (m.consecutive_losses ≥ 2 →
        m.daily_trades ≥ cfg.max_daily_trades - 1 →
        get_position_size cfg m base_size
          = max 1 (Int.fdiv
              (max 1 (Int.fdiv (min base_size cfg.max_position_size) 2))
              2)) := by
  unfold get_position_size
  refine ⟨?_, ?_, ?_, ?_⟩ <;> intro h1 h2 <;> simp [h1, h2]

/-- Metrics sitting at both reduction boundaries: two consecutive
losses and one trade below the daily limit. -/
def sized_metrics : RiskMetrics := { daily_trades := 4, consecutive_losses := 2 }

/-- Witness for C8: both halvings compound on the same request. -/
theorem c8_suggested_size_witness :
    get_position_size default_config sized_metrics 10
      = max 1 (Int.fdiv
          (max 1 (Int.fdiv (min 10 default_config.max_position_size) 2)) 2) :=
  (c8_suggested_size default_config sized_metrics 10).2.2.2 (by decide)
    (by decide)

/-- C10: for every `quantity ≥ 1` the partial sizes of `CreatePlan`
satisfy `q1 = q2 = max(1, floor(0.33 * quantity))` and
`q1 + q2 + q3 = quantity`; consequently `quantity = 2` gives runner
size `q3 = 0` and `quantity = 1` gives `q3 = -1`: a non-positive third
exit quantity at the public interface for `quantity ≤ 2`. -/
theorem c10_partial_sizes (direction : String) (entry stop target : ℚ)
    (quantity : ℤ) (hq : 1 ≤ quantity) :
    ((create_exit_plan direction entry stop target quantity).partial_sizes.1
        = max 1 ⌊(33 : ℚ)/100 * (quantity : ℚ)⌋
      ∧ (create_exit_plan direction entry stop target
            quantity).partial_sizes.2.1
          = max 1 ⌊(33 : ℚ)/100 * (quantity : ℚ)⌋
      ∧ (create_exit_plan direction entry stop target
            quantity).partial_sizes.1
          + (create_exit_plan direction entry stop target
              quantity).partial_sizes.2.1
          + (create_exit_plan direction entry stop target
              quantity).partial_sizes.2.2
          = quantity)
    ∧ (create_exit_plan "LONG" 100 90 140 2).partial_sizes.2.2 = 0
    ∧ (create_exit_plan "LONG" 100 90 140 1).partial_sizes.2.2 = -1 := by
  have hq0 : (0 : ℚ) ≤ (quantity : ℚ) * (33/100) := by
    have : (0 : ℚ) ≤ (quantity : ℚ) := by exact_mod_cast le_trans zero_le_one hq
    positivity
  have htr : int_trunc ((quantity : ℚ) * (33/100))
      = ⌊(33 : ℚ)/100 * (quantity : ℚ)⌋ := by
    unfold int_trunc
    rw [if_pos hq0, mul_comm]
  refine ⟨⟨?_, ?_, ?_⟩, ?_, ?_⟩
  · simp only [create_exit_plan, htr]
  · simp only [create_exit_plan, htr]
  · simp only [create_exit_plan]
    ring
  · norm_num [create_exit_plan, int_trunc]
  · norm_num [create_exit_plan, int_trunc]

/-- Witness for C10 at `quantity = 2`. -/
theorem c10_partial_sizes_witness :
    (create_exit_plan "LONG" 100 90 140 2).partial_sizes.1
        = max 1 ⌊(33 : ℚ)/100 * ((2 : ℤ) : ℚ)⌋
      ∧ (create_exit_plan "LONG" 100 90 140 2).partial_sizes.2.1
        = max 1 ⌊(33 : ℚ)/100 * ((2 : ℤ) : ℚ)⌋
      ∧ (create_exit_plan "LONG" 100 90 140 2).partial_sizes.1
          + (create_exit_plan "LONG" 100 90 140 2).partial_sizes.2.1
          + (create_exit_plan "LONG" 100 90 140 2).partial_sizes.2.2
        = 2 :=
  (c10_partial_sizes "LONG" 100 90 140 2 (by decide)).1

end SpecProof
